import Mathlib

/-!
Verification of the tap-intacct protocol adapter (`tap_intacct/streams.py`).

The development shallowly embeds the adapter's four components:

* the date normalizer `IntacctStream._parse_to_datetime` (two fixed
  `strptime` formats, tried in order, embedded down to the character-level
  matching that CPython's `_strptime` performs for the directives
  `%m %d %Y %H %M %S`, plus the `datetime` constructor's range validation);
* the watermark formatter `IntacctStream._format_date_for_intacct`;
* the record post-processor `IntacctStream.post_process`;
* the response parser `IntacctStream.parse_response` over a JSON-like tree
  (the result of `xmltodict.parse` + `json` round-trip), with Python's
  `d[k]` / `d.get(k, v)` semantics made explicit, including the
  `KeyError` / `TypeError` / `AttributeError` / `NameError` escapes;
* the request builder `IntacctStream.prepare_request_payload`, with the
  wall-clock timestamp and the generated UUID taken as explicit inputs and
  `xmltodict.unparse` embedded as a deterministic XML renderer.
-/

namespace TapIntacct

/-! ## Python `datetime` model -/

/-- A Python `datetime.datetime` value (naive; timezone not modelled because
the adapter never attaches one on the parsing side). -/
structure PyDateTime where
  year : Nat
  month : Nat
  day : Nat
  hour : Nat
  minute : Nat
  second : Nat
  microsecond : Nat
  deriving DecidableEq, Repr

/-- Gregorian leap-year rule used by Python's `calendar`/`datetime`. -/
def isLeap (y : Nat) : Bool :=
  (y % 4 == 0 && !(y % 100 == 0)) || y % 400 == 0

/-- Days in a month, as enforced by the `datetime.datetime` constructor. -/
def daysInMonth (y m : Nat) : Nat :=
  if m = 2 then (if isLeap y then 29 else 28)
  else if m = 4 ∨ m = 6 ∨ m = 9 ∨ m = 11 then 30
  else 31

/-- Range validity enforced by the `datetime.datetime` constructor
(`MINYEAR = 1`, `MAXYEAR = 9999`). -/
def ValidDT (d : PyDateTime) : Prop :=
  1 ≤ d.year ∧ d.year ≤ 9999 ∧ 1 ≤ d.month ∧ d.month ≤ 12 ∧
  1 ≤ d.day ∧ d.day ≤ daysInMonth d.year d.month ∧
  d.hour ≤ 23 ∧ d.minute ≤ 59 ∧ d.second ≤ 59 ∧ d.microsecond ≤ 999999

instance (d : PyDateTime) : Decidable (ValidDT d) := by
  unfold ValidDT; infer_instance

/-! ## `strptime` for the two formats used by the source

CPython's `_strptime` compiles `"%m/%d/%Y %H:%M:%S"` to the anchored regex
`(1[0-2]|0[1-9]|[1-9])/(3[01]|[12]\d|0[1-9]|[1-9])/(\d\d\d\d)\s+
(2[0-3]|[0-1]\d|\d):([0-5]\d|\d):(6[0-1]|[0-5]\d|\d)` and requires the whole
input to be consumed.  Each matcher below returns the list of candidate
`(value, rest)` parses in the backtracking priority order of the regex
alternation; the overall match is the first candidate whose continuation
succeeds, exactly as the regex engine would find it. -/

/-- Code point of a character. -/
def cv (c : Char) : Nat := c.toNat

/-- Candidates of `1[0-2]|0[1-9]|[1-9]` (the `%m` directive). -/
def matchM : List Char → List (Nat × List Char)
  | c1 :: c2 :: r =>
      (if cv c1 = 49 ∧ 48 ≤ cv c2 ∧ cv c2 ≤ 50 then [(10 + (cv c2 - 48), r)] else []) ++
      (if cv c1 = 48 ∧ 49 ≤ cv c2 ∧ cv c2 ≤ 57 then [(cv c2 - 48, r)] else []) ++
      (if 49 ≤ cv c1 ∧ cv c1 ≤ 57 then [(cv c1 - 48, c2 :: r)] else [])
  | [c] => if 49 ≤ cv c ∧ cv c ≤ 57 then [(cv c - 48, [])] else []
  | [] => []

/-- Candidates of `3[01]|[12]\d|0[1-9]|[1-9]` (the `%d` directive). -/
def matchD : List Char → List (Nat × List Char)
  | c1 :: c2 :: r =>
      (if cv c1 = 51 ∧ (cv c2 = 48 ∨ cv c2 = 49) then [(30 + (cv c2 - 48), r)] else []) ++
      (if (cv c1 = 49 ∨ cv c1 = 50) ∧ 48 ≤ cv c2 ∧ cv c2 ≤ 57 then
        [(10 * (cv c1 - 48) + (cv c2 - 48), r)] else []) ++
      (if cv c1 = 48 ∧ 49 ≤ cv c2 ∧ cv c2 ≤ 57 then [(cv c2 - 48, r)] else []) ++
      (if 49 ≤ cv c1 ∧ cv c1 ≤ 57 then [(cv c1 - 48, c2 :: r)] else [])
  | [c] => if 49 ≤ cv c ∧ cv c ≤ 57 then [(cv c - 48, [])] else []
  | [] => []

/-- Candidates of `2[0-3]|[0-1]\d|\d` (the `%H` directive). -/
def matchH : List Char → List (Nat × List Char)
  | c1 :: c2 :: r =>
      (if cv c1 = 50 ∧ 48 ≤ cv c2 ∧ cv c2 ≤ 51 then [(20 + (cv c2 - 48), r)] else []) ++
      (if (cv c1 = 48 ∨ cv c1 = 49) ∧ 48 ≤ cv c2 ∧ cv c2 ≤ 57 then
        [(10 * (cv c1 - 48) + (cv c2 - 48), r)] else []) ++
      (if 48 ≤ cv c1 ∧ cv c1 ≤ 57 then [(cv c1 - 48, c2 :: r)] else [])
  | [c] => if 48 ≤ cv c ∧ cv c ≤ 57 then [(cv c - 48, [])] else []
  | [] => []

/-- Candidates of `[0-5]\d|\d` (the `%M` directive). -/
def matchMin : List Char → List (Nat × List Char)
  | c1 :: c2 :: r =>
      (if 48 ≤ cv c1 ∧ cv c1 ≤ 53 ∧ 48 ≤ cv c2 ∧ cv c2 ≤ 57 then
        [(10 * (cv c1 - 48) + (cv c2 - 48), r)] else []) ++
      (if 48 ≤ cv c1 ∧ cv c1 ≤ 57 then [(cv c1 - 48, c2 :: r)] else [])
  | [c] => if 48 ≤ cv c ∧ cv c ≤ 57 then [(cv c - 48, [])] else []
  | [] => []

/-- Candidates of `6[0-1]|[0-5]\d|\d` (the `%S` directive; 60 and 61 are
accepted by the regex and later rejected by the `datetime` constructor). -/
def matchSec : List Char → List (Nat × List Char)
  | c1 :: c2 :: r =>
      (if cv c1 = 54 ∧ (cv c2 = 48 ∨ cv c2 = 49) then [(60 + (cv c2 - 48), r)] else []) ++
      (if 48 ≤ cv c1 ∧ cv c1 ≤ 53 ∧ 48 ≤ cv c2 ∧ cv c2 ≤ 57 then
        [(10 * (cv c1 - 48) + (cv c2 - 48), r)] else []) ++
      (if 48 ≤ cv c1 ∧ cv c1 ≤ 57 then [(cv c1 - 48, c2 :: r)] else [])
  | [c] => if 48 ≤ cv c ∧ cv c ≤ 57 then [(cv c - 48, [])] else []
  | [] => []

/-- The `%Y` directive: exactly four digits. -/
def matchY : List Char → List (Nat × List Char)
  | c1 :: c2 :: c3 :: c4 :: r =>
      if 48 ≤ cv c1 ∧ cv c1 ≤ 57 ∧ 48 ≤ cv c2 ∧ cv c2 ≤ 57 ∧
         48 ≤ cv c3 ∧ cv c3 ≤ 57 ∧ 48 ≤ cv c4 ∧ cv c4 ≤ 57 then
        [(1000 * (cv c1 - 48) + 100 * (cv c2 - 48) + 10 * (cv c3 - 48) + (cv c4 - 48), r)]
      else []
  | _ => []

/-- A literal character in the format string. -/
def matchLit (ch : Char) : List Char → List (List Char)
  | c :: r => if c = ch then [r] else []
  | [] => []

/-- Python regex `\s` (restricted to the ASCII whitespace the adapter can
meet in vendor date strings). -/
def isWs (c : Char) : Bool :=
  cv c = 32 || cv c = 9 || cv c = 10 || cv c = 13 || cv c = 11 || cv c = 12

/-- Candidates of `\s+` (a literal blank in a `strptime` format is compiled
to `\s+`): the rests after consuming at least one whitespace character,
longest consumption first (greedy). -/
def wsSplits : List Char → List (List Char)
  | [] => []
  | c :: r => if isWs c then wsSplits r ++ [r] else []

/-- All full matches of the compiled `"%m/%d/%Y %H:%M:%S"` regex against the
whole input, as `(month, day, year, hour, minute, second)` tuples in
backtracking priority order. -/
def timeCands (cs : List Char) : List (Nat × Nat × Nat × Nat × Nat × Nat) :=
  (matchM cs).flatMap fun mr =>
  (matchLit '/' mr.2).flatMap fun r2 =>
  (matchD r2).flatMap fun dr =>
  (matchLit '/' dr.2).flatMap fun r4 =>
  (matchY r4).flatMap fun yr =>
  (wsSplits yr.2).flatMap fun r6 =>
  (matchH r6).flatMap fun hr =>
  (matchLit ':' hr.2).flatMap fun r8 =>
  (matchMin r8).flatMap fun mir =>
  (matchLit ':' mir.2).flatMap fun r10 =>
  (matchSec r10).flatMap fun sr =>
  if sr.2 = [] then [(mr.1, dr.1, yr.1, hr.1, mir.1, sr.1)] else []

/-- All full matches of the compiled `"%m/%d/%Y"` regex, in priority order. -/
def dateCands (cs : List Char) : List (Nat × Nat × Nat) :=
  (matchM cs).flatMap fun mr =>
  (matchLit '/' mr.2).flatMap fun r2 =>
  (matchD r2).flatMap fun dr =>
  (matchLit '/' dr.2).flatMap fun r4 =>
  (matchY r4).flatMap fun yr =>
  if yr.2 = [] then [(mr.1, dr.1, yr.1)] else []

/-- The `datetime.datetime` constructor called by `strptime` on the matched
fields: validates ranges, else raises `ValueError`. -/
def mkDatetime (y m d h mi s : Nat) : Option PyDateTime :=
  if 1 ≤ y ∧ y ≤ 9999 ∧ 1 ≤ m ∧ m ≤ 12 ∧ 1 ≤ d ∧ d ≤ daysInMonth y m ∧
     h ≤ 23 ∧ mi ≤ 59 ∧ s ≤ 59 then
    some ⟨y, m, d, h, mi, s, 0⟩
  else none

/-- `datetime.strptime(s, "%m/%d/%Y %H:%M:%S")`: commit to the first full
regex match, then validate through the constructor.  `none` models a raised
`ValueError`. -/
def strptimeFull (s : String) : Option PyDateTime :=
  match timeCands s.data with
  | [] => none
  | (m, d, y, h, mi, sec) :: _ => mkDatetime y m d h mi sec

/-- `datetime.strptime(s, "%m/%d/%Y")`. -/
def strptimeDateOnly (s : String) : Option PyDateTime :=
  match dateCands s.data with
  | [] => none
  | (m, d, y) :: _ => mkDatetime y m d 0 0 0

/-- `IntacctStream._parse_to_datetime` (streams.py:327-340): try the full
format, on `ValueError` try the date-only format, else raise
`ValueError(f"Invalid date format: {date_str}")`. -/
def parseToDatetime (s : String) : Except String PyDateTime :=
  match strptimeFull s with
  | some d => .ok d
  | none =>
    match strptimeDateOnly s with
    | some d => .ok d
    | none => .error ("Invalid date format: " ++ s)

/-! ## The watermark formatter -/

/-- The character of a decimal digit. -/
def digitChar (n : Nat) : Char := Char.ofNat (48 + n)

/-- Zero-padded two-digit rendering (Python `%m %d %H %M %S`). -/
def pad2 (n : Nat) : List Char := [digitChar (n / 10), digitChar (n % 10)]

/-- Zero-padded four-digit rendering (used by `str(datetime)` for the year,
and equal to the `%Y` rendering for years 1000-9999). -/
def pad4 (n : Nat) : List Char :=
  [digitChar (n / 1000), digitChar (n / 100 % 10), digitChar (n / 10 % 10), digitChar (n % 10)]

/-- The `%Y` rendering of `datetime.strftime` as the platform (glibc) prints
it: the year as a plain decimal number, with **no** zero padding below 1000
(year 999 renders as `999`, not `0999`).  Decimal cases cover the whole
year range of `datetime` objects (`MINYEAR = 1` to `MAXYEAR = 9999`), the
only values the adapter can format. -/
def yearChars (y : Nat) : List Char :=
  if y < 10 then [digitChar y]
  else if y < 100 then [digitChar (y / 10), digitChar (y % 10)]
  else if y < 1000 then [digitChar (y / 100), digitChar (y / 10 % 10), digitChar (y % 10)]
  else pad4 y

/-- `IntacctStream._format_date_for_intacct` (streams.py:98-107):
`datetime.strftime("%m/%d/%Y %H:%M:%S")`. -/
def formatDateForIntacct (d : PyDateTime) : String :=
  String.mk (pad2 d.month ++ '/' :: (pad2 d.day ++ '/' :: (yearChars d.year ++
    ' ' :: (pad2 d.hour ++ ':' :: (pad2 d.minute ++ ':' :: pad2 d.second)))))

example : parseToDatetime "01/15/2024 13:45:00" = .ok ⟨2024, 1, 15, 13, 45, 0, 0⟩ := by rfl
example : parseToDatetime "01/15/2024" = .ok ⟨2024, 1, 15, 0, 0, 0, 0⟩ := by rfl
example : parseToDatetime "not-a-date" = .error "Invalid date format: not-a-date" := by rfl
example : parseToDatetime "02/30/2024" = .error "Invalid date format: 02/30/2024" := by rfl
example : parseToDatetime "1/2/2024" = .ok ⟨2024, 1, 2, 0, 0, 0, 0⟩ := by rfl
example : formatDateForIntacct ⟨2024, 1, 15, 13, 45, 7, 250⟩ = "01/15/2024 13:45:07" := by decide

/-! ## JSON-like values

`parse_response` first runs `xmltodict.parse` and a `json` round-trip, so the
structure it walks holds only strings, `None`, dicts and lists. -/

/-- A decoded response tree. -/
inductive JVal where
  | jnull : JVal
  | jstr : String → JVal
  | jobj : List (String × JVal) → JVal
  | jarr : List JVal → JVal

/-- First entry with the given key (Python dicts have unique keys, so this is
exactly `d[k]` presence-wise). -/
def jLookup (kvs : List (String × JVal)) (k : String) : Option JVal :=
  match kvs with
  | [] => none
  | (k', v) :: rest => if k' = k then some v else jLookup rest k

/-- Whether a value is a list. -/
def JVal.isArr : JVal → Bool
  | .jarr _ => true
  | _ => false

/-- Python `v == some_string` (comparison of a decoded value with a string
literal: only a string compares equal). -/
def jeqStr (v : JVal) (s : String) : Bool :=
  match v with
  | .jstr t => t == s
  | _ => false

/-- Python truthiness of a decoded value. -/
def pyTruthy : JVal → Bool
  | .jnull => false
  | .jstr s => !(s == "")
  | .jobj kvs => !kvs.isEmpty
  | .jarr xs => !xs.isEmpty

/-- Whether the second list begins with the first. -/
def listStartsWith : List Char → List Char → Bool
  | [], _ => true
  | _ :: _, [] => false
  | a :: as, b :: bs => a == b && listStartsWith as bs

/-- Contiguous-substring test. -/
def listHasSub (needle : List Char) : List Char → Bool
  | [] => listStartsWith needle []
  | c :: t => listStartsWith needle (c :: t) || listHasSub needle t

/-- Python `needle in hay` for the payload shapes that can occur here:
substring test on a string, key test on a dict, membership on a list. -/
def pyContainsStr (needle : String) (hay : JVal) : Bool :=
  match hay with
  | .jstr h => listHasSub needle.data h.data
  | .jobj kvs => kvs.any fun p => p.1 == needle
  | .jarr xs => xs.any fun x => jeqStr x needle
  | .jnull => false

/-! ## The error taxonomy of `tap_intacct/exceptions.py` plus the Python
built-in errors that `parse_response` can let escape. -/

/-- Errors that `parse_response` can raise.  The `py...` constructors are the
Python built-in exceptions escaping from dict indexing (`KeyError`),
subscripting a non-dict (`TypeError`), `.get` on a non-dict
(`AttributeError`) and the read of the possibly-unbound local
`api_response` (`NameError`). -/
inductive SageErr where
  | badGateway (statusCode : Nat) (body : String)
  | offlineService (statusCode : Nat) (body : String)
  | rateLimit (statusCode : Nat) (body : String)
  | invalidXmlResponse (statusCode : Nat) (body : String)
  | wrongParams (msg : String) (decodedSupport : JVal)
  | invalidTokenApp (msg : String) (errPayload : JVal)
  | invalidToken (payload : JVal)
  | authFailure (payload : JVal)
  | invalidRequest (msg : String) (payload : JVal)
  | noPrivilege (payload : JVal)
  | notFound (payload : JVal)
  | expiredToken (payload : JVal)
  | internalServerError (payload : JVal)
  | pleaseTryAgainLater (payload : JVal)
  | sdkError (payload : JVal)
  | pyKeyError (key : String)
  | pyTypeError (ctx : String)
  | pyAttributeError (ctx : String)
  | pyNameError (ident : String)

/-- Membership in the closed taxonomy of classified errors (everything the
repository's `exceptions.py` defines, i.e. everything except the Python
built-in escapes). -/
def isClassified : SageErr → Bool
  | .pyKeyError _ => false
  | .pyTypeError _ => false
  | .pyAttributeError _ => false
  | .pyNameError _ => false
  | _ => true

/-- Python `v[k]`: value on a dict holding the key, `KeyError` on a dict
missing it, `TypeError` on any non-dict. -/
def jIndex (v : JVal) (k : String) : Except SageErr JVal :=
  match v with
  | .jobj kvs =>
    match jLookup kvs k with
    | some x => .ok x
    | none => .error (.pyKeyError k)
  | _ => .error (.pyTypeError k)

/-- Python `v.get(k, dflt)`: total on dicts, `AttributeError` on non-dicts. -/
def jGetD (v : JVal) (k : String) (dflt : JVal) : Except SageErr JVal :=
  match v with
  | .jobj kvs => .ok ((jLookup kvs k).getD dflt)
  | _ => .error (.pyAttributeError k)

/-! ## `IntacctStream.parse_response` (streams.py:212-325) -/

/-- `desc_2` extraction (streams.py:263-272): `error.get("description2")`
when `error` is a dict, `error[0].get("description2")` when it is a
non-empty list, `""` otherwise.  `.get` on a non-dict list head raises
`AttributeError`. -/
def desc2Of (e : JVal) : Except SageErr JVal :=
  match e with
  | .jobj kvs => .ok ((jLookup kvs "description2").getD .jnull)
  | .jarr (h :: _) =>
    match h with
    | .jobj kvs => .ok ((jLookup kvs "description2").getD .jnull)
    | _ => .error (.pyAttributeError "description2")
  | .jarr [] => .ok (.jstr "")
  | _ => .ok (.jstr "")

/-- The HTTP-status-driven classification (streams.py:290-325), reached once
`exception_msg` (a dict by then, `excMsg` its entries) and `correction`
have been extracted. -/
def classifyHttp (status : Nat) (parsed : JVal) (excMsg : List (String × JVal))
    (correction : JVal) : SageErr :=
  if status = 400 then
    if jeqStr ((jLookup excMsg "errorno").getD .jnull) "GW-0011" then
      .authFailure parsed
    else
      .invalidRequest "Invalid request" parsed
  else if status = 401 then .invalidToken parsed
  else if status = 403 then .noPrivilege parsed
  else if status = 404 then .notFound parsed
  else if status = 498 then .expiredToken parsed
  else if status = 500 then .internalServerError parsed
  else if pyTruthy correction && pyContainsStr "Please Try Again Later" correction then
    .pleaseTryAgainLater parsed
  else
    .sdkError parsed

/-- Error classification when `xmltodict.parse`/`json` raised
(streams.py:221-239). -/
def decodeFailErr (status : Nat) (body : String) : SageErr :=
  if status = 502 then .badGateway status body
  else if status = 503 then .offlineService status body
  else if status = 429 then .rateLimit status body
  else .invalidXmlResponse status body

/-- The common tail (streams.py:285-325): extract
`parsed.get("response", {}).get("errormessage", {}).get("error", {})` and
`exception_msg.get("correction", {})`, then classify by HTTP status. -/
def tailClassify (status : Nat) (parsed : JVal) : Except SageErr JVal := do
  let r1 ← jGetD parsed "response" (.jobj [])
  let r2 ← jGetD r1 "errormessage" (.jobj [])
  let excv ← jGetD r2 "error" (.jobj [])
  match excv with
  | .jobj kvs =>
    .error (classifyHttp status parsed kvs ((jLookup kvs "correction").getD (.jobj [])))
  | _ => .error (.pyAttributeError "correction")

/-- Outcome of the HTTP-200 block: records returned, an exception raised, or
fall-through to the common tail. -/
inductive B200 where
  | ret (v : JVal)
  | raised (e : SageErr)
  | fell

/-- The HTTP-200 block (streams.py:241-283), with the Python statements in
source order.  `dsi` is the external `sage_client.decode_support_id`
collaborator.  The second component is the list of error-severity log
payloads emitted. -/
def block200 (dsi : JVal → JVal) (objName : String) (parsed : JVal) :
    B200 × List JVal :=
  match jIndex parsed "response" with
  | .error e => (.raised e, [])
  | .ok resp =>
  match jIndex resp "control" with
  | .error e => (.raised e, [])
  | .ok ctl =>
  match jIndex ctl "status" with
  | .error e => (.raised e, [])
  | .ok st =>
  match (if jeqStr st "success" then (jIndex resp "operation").map some else .ok none) with
  | .error e => (.raised e, [])
  | .ok apiOpt =>
  if jeqStr st "failure" then
    match jIndex resp "errormessage" with
    | .error e => (.raised e, [])
    | .ok em => (.raised (.wrongParams "Some of the parameters are wrong" (dsi em)), [])
  else
  match apiOpt with
  | none => (.raised (.pyNameError "api_response"), [])
  | some api =>
  match jIndex api "authentication" with
  | .error e => (.raised e, [])
  | .ok auth =>
  match jIndex auth "status" with
  | .error e => (.raised e, [])
  | .ok ast =>
  if jeqStr ast "failure" then
    match jIndex api "errormessage" with
    | .error e => (.raised e, [])
    | .ok em => (.raised (.invalidTokenApp "Invalid token / Incorrect credentials" em), [])
  else
  match jIndex api "result" with
  | .error e => (.raised e, [])
  | .ok res =>
  match jIndex res "status" with
  | .error e => (.raised e, [])
  | .ok rst =>
  if jeqStr rst "success" then
    match jIndex res "data" with
    | .error e => (.raised e, [])
    | .ok dat =>
    match jIndex dat objName with
    | .error e => (.raised e, [])
    | .ok recs => (.ret recs, [])
  else
    match (do
      let r1 ← jGetD api "result" (.jobj [])
      let r2 ← jGetD r1 "errormessage" (.jobj [])
      let ev ← jGetD r2 "error" (.jobj [])
      desc2Of ev) with
    | .error e => (.raised e, [api])
    | .ok _ => (.fell, [api])

/-- Result of `parse_response`: the returned record collection or the raised
error, together with the error-severity log payloads emitted on the way. -/
structure ParseOut where
  outcome : Except SageErr JVal
  logs : List JVal

/-- `IntacctStream.parse_response` (streams.py:212-325).  `decoded` is the
result of the `try` block: `some parsed` when `xmltodict.parse` + `json`
round-trip succeeded, `none` when it raised. -/
def parse_response (dsi : JVal → JVal) (objName : String) (status : Nat)
    (body : String) (decoded : Option JVal) : ParseOut :=
  match decoded with
  | none => ⟨.error (decodeFailErr status body), []⟩
  | some parsed =>
    if status = 200 then
      match block200 dsi objName parsed with
      | (.ret v, logs) => ⟨.ok v, logs⟩
      | (.raised e, logs) => ⟨.error e, logs⟩
      | (.fell, logs) => ⟨tailClassify status parsed, logs⟩
    else ⟨tailClassify status parsed, []⟩

/-! ## `IntacctStream.post_process` (streams.py:342-359) -/

/-- A record field value: XML gives strings or nulls; after normalization a
field holds a datetime object. -/
inductive Cell where
  | vnull : Cell
  | vstr : String → Cell
  | vdt : PyDateTime → Cell
  deriving DecidableEq, Repr

/-- Python errors out of the post-processing loop: `KeyError` from
`row[field]` on an absent key, the `ValueError` from
`_parse_to_datetime`, `TypeError` from `strptime` on a non-string. -/
inductive PErr where
  | keyErr (k : String)
  | valueErr (msg : String)
  | typeErr
  deriving DecidableEq, Repr

/-- First value for a key in a record. -/
def rowLookup (row : List (String × Cell)) (f : String) : Option Cell :=
  match row with
  | [] => none
  | (k, v) :: rest => if k = f then some v else rowLookup rest f

/-- In-place update `row[field] = v` (Python dict keys are unique; rewriting
every entry with the key is the same update). -/
def rowUpdate (row : List (String × Cell)) (f : String) (v : Cell) :
    List (String × Cell) :=
  match row with
  | [] => []
  | (k, w) :: rest =>
    if k = f then (k, v) :: rowUpdate rest f v else (k, w) :: rowUpdate rest f v

/-- One iteration of the `for field in self.datetime_fields` loop body:
`if row[field] is not None: row[field] = self._parse_to_datetime(row[field])`. -/
def processField (row : List (String × Cell)) (f : String) :
    Except PErr (List (String × Cell)) :=
  match rowLookup row f with
  | none => .error (.keyErr f)
  | some .vnull => .ok row
  | some (.vstr s) =>
    match parseToDatetime s with
    | .ok d => .ok (rowUpdate row f (.vdt d))
    | .error m => .error (.valueErr m)
  | some (.vdt _) => .error .typeErr

/-- `IntacctStream.post_process`: run the loop over the schema's declared
date-time fields; an exception aborts the record. -/
def post_process (dtFields : List String) (row : List (String × Cell)) :
    Except PErr (List (String × Cell)) :=
  dtFields.foldlM processField row

/-! ## `IntacctStream.prepare_request_payload` (streams.py:144-210)

The wall-clock control id (`datetime.now(timezone.utc)`) and the generated
function control id (`uuid.uuid4()`) are explicit inputs `now` / `uuid`;
everything else the builder reads (config, schema field list, replication
key, session id, watermark) is in `StreamCfg` / `startTs`. -/

/-- The inputs `prepare_request_payload` reads from the stream object and the
tap config. -/
structure StreamCfg where
  name : String
  intacctObjName : String
  schemaFields : List String
  repKey : String
  senderId : String
  senderPassword : String
  sessionId : String

/-- A value in the `dict_body` tree handed to `xmltodict.unparse`: the
Python scalars that occur there, plus lists and nested dicts. -/
inductive XVal where
  | xs (v : String)
  | xb (v : Bool)
  | xi (v : Int)
  | xf1 (ip : Int) (fr : Nat)
  | xdt (v : PyDateTime)
  | xlst (items : List XVal)
  | xmap (entries : List (String × XVal))

/-- Zero-padded six-digit rendering (datetime microseconds). -/
def pad6 (n : Nat) : List Char :=
  [digitChar (n / 100000 % 10), digitChar (n / 10000 % 10), digitChar (n / 1000 % 10),
   digitChar (n / 100 % 10), digitChar (n / 10 % 10), digitChar (n % 10)]

/-- Python `str()` of an aware UTC `datetime`, as produced for the outer
`controlid` field: `YYYY-MM-DD HH:MM:SS[.ffffff]+00:00`. -/
def pyDatetimeUtcStr (d : PyDateTime) : String :=
  String.mk (pad4 d.year) ++ "-" ++ String.mk (pad2 d.month) ++ "-" ++
  String.mk (pad2 d.day) ++ " " ++ String.mk (pad2 d.hour) ++ ":" ++
  String.mk (pad2 d.minute) ++ ":" ++ String.mk (pad2 d.second) ++
  (if d.microsecond = 0 then "" else "." ++ String.mk (pad6 d.microsecond)) ++
  "+00:00"

/-- Python `str()` of a scalar `dict_body` leaf (what `xmltodict` writes as
element text). -/
def scalarStr : XVal → String
  | .xs v => v
  | .xb true => "True"
  | .xb false => "False"
  | .xi v => toString v
  | .xf1 ip fr => toString ip ++ "." ++ toString fr
  | .xdt v => pyDatetimeUtcStr v
  | .xlst _ => ""
  | .xmap _ => ""

/-- XML text escaping (`xml.sax.saxutils.escape`). -/
def escChar (c : Char) : List Char :=
  if c = '&' then "&amp;".data
  else if c = '<' then "&lt;".data
  else if c = '>' then "&gt;".data
  else [c]

/-- Escape a text node. -/
def escText (s : String) : String := String.mk (s.data.flatMap escChar)

/-- Escape an attribute value (additionally quotes). -/
def escAttr (s : String) : String :=
  String.mk (s.data.flatMap fun c => if c = '\"' then "&quot;".data else escChar c)

/-- Whether a `dict_body` key is an XML attribute key (leading `@`). -/
def isAttrKey (k : String) : Bool :=
  match k.data with
  | c :: _ => c == '@'
  | [] => false

/-- Attribute string of an element: the entries whose key starts with `@`. -/
def renderAttrs : List (String × XVal) → String
  | [] => ""
  | (k, v) :: rest =>
    (if isAttrKey k then
      " " ++ String.mk (k.data.drop 1) ++ "=\"" ++ escAttr (scalarStr v) ++ "\""
    else "") ++
    renderAttrs rest

/-- Render one element, `xmltodict.unparse` style: a dict value becomes
attributes plus children, a list value repeats the tag per item, a scalar
becomes a text element.  The `fuel` argument bounds the rendering depth; it
is structural only (every tree the adapter serializes has depth below any
fuel given to it here). -/
def renderX (fuel : Nat) (tag : String) (v : XVal) : String :=
  match fuel with
  | 0 => ""
  | n + 1 =>
    match v with
    | .xmap entries =>
      "<" ++ tag ++ renderAttrs entries ++ ">" ++
      String.join (entries.map fun p => if isAttrKey p.1 then "" else renderX n p.1 p.2) ++
      "</" ++ tag ++ ">"
    | .xlst items => String.join (items.map fun w => renderX n tag w)
    | w => "<" ++ tag ++ ">" ++ escText (scalarStr w) ++ "</" ++ tag ++ ">"

/-- `xmltodict.unparse` of a single-root document (the `dict_body` tree is
eight levels deep, far below the rendering bound). -/
def unparse (doc : List (String × XVal)) : String :=
  "<?xml version=\"1.0\" encoding=\"utf-8\"?>" ++ "\n" ++
  String.join (doc.map fun p => renderX 64 p.1 p.2)

/-- The `dict_body` structure built at streams.py:163-209, entry for entry in
source order. -/
def dictBody (cfg : StreamCfg) (startTs now : PyDateTime) (uuid : String) :
    List (String × XVal) :=
  [("request", .xmap [
    ("control", .xmap [
      ("senderid", .xs cfg.senderId),
      ("password", .xs cfg.senderPassword),
      ("controlid", .xdt now),
      ("uniqueid", .xb false),
      ("dtdversion", .xf1 3 0),
      ("includewhitespace", .xb false)]),
    ("operation", .xmap [
      ("authentication", .xmap [("sessionid", .xs cfg.sessionId)]),
      ("content", .xmap [
        ("function", .xmap [
          ("@controlid", .xs uuid),
          ("query", .xmap [
            ("object", .xs cfg.intacctObjName),
            ("select", .xmap [("field", .xlst (cfg.schemaFields.map XVal.xs))]),
            ("options", .xmap [("showprivate", .xs "true")]),
            ("filter", .xmap [
              ("greaterthanorequalto", .xmap [
                ("field", .xs cfg.repKey),
                ("value", .xs (formatDateForIntacct startTs))])]),
            ("pagesize", .xi 1000),
            ("offset", .xi 0),
            ("orderby", .xmap [
              ("order", .xmap [
                ("field", .xs cfg.repKey),
                ("ascending", .xmap [])])])])])])])])]

/-- `IntacctStream.prepare_request_payload`: the guard on the reserved
`audit_history` stream name (streams.py:160-161, a bare
`Exception("TODO hanlde audit streams")`), then the body construction and
serialization. -/
def prepare_request_payload (cfg : StreamCfg) (startTs now : PyDateTime)
    (uuid : String) : Except String String :=
  if cfg.name = "audit_history" then .error "TODO hanlde audit streams"
  else .ok (unparse (dictBody cfg startTs now uuid))

/-- Replace the value at a key path in a `dict_body` tree. -/
def replaceAt : XVal → List String → XVal → XVal
  | _, [], nv => nv
  | .xmap entries, k :: rest, nv =>
    .xmap (entries.map fun p => if p.1 = k then (p.1, replaceAt p.2 rest nv) else p)
  | x, _ :: _, _ => x

/-- Mask the two generated control ids of a built request body (the outer
wall-clock `controlid` and the inner random `@controlid`). -/
def maskControlIds (doc : List (String × XVal)) : List (String × XVal) :=
  doc.map fun p =>
    (p.1, replaceAt (replaceAt p.2 ["control", "controlid"] (.xs "CONTROLID"))
      ["operation", "content", "function", "@controlid"] (.xs "FNCONTROLID"))

/-! ## Helper lemmas -/

/-- Every decode-failure error is in the classified taxonomy. -/
lemma isClassified_decodeFailErr (status : Nat) (body : String) :
    isClassified (decodeFailErr status body) = true := by
  unfold decodeFailErr
  split
  · rfl
  · split
    · rfl
    · split <;> rfl

/-- Every HTTP-status-classification error is in the classified taxonomy. -/
lemma isClassified_classifyHttp (status : Nat) (parsed : JVal)
    (excMsg : List (String × JVal)) (correction : JVal) :
    isClassified (classifyHttp status parsed excMsg correction) = true := by
  unfold classifyHttp
  repeat' split
  all_goals rfl

/-- Reduction of the common tail when the three `.get` steps succeed and
yield a dict-valued `exception_msg`. -/
lemma tailClassify_eq (status : Nat) (parsed r1 r2 : JVal)
    (kvs : List (String × JVal))
    (h1 : jGetD parsed "response" (.jobj []) = .ok r1)
    (h2 : jGetD r1 "errormessage" (.jobj []) = .ok r2)
    (h3 : jGetD r2 "error" (.jobj []) = .ok (.jobj kvs)) :
    tailClassify status parsed =
      .error (classifyHttp status parsed kvs ((jLookup kvs "correction").getD (.jobj []))) := by
  simp [tailClassify, h1, h2, h3, Bind.bind, Except.bind]

/-- Reduction of `parse_response` through the common tail for a non-200
status with a decodable body. -/
lemma parse_response_tail (dsi : JVal → JVal) (objName : String) (status : Nat)
    (body : String) (parsed r1 r2 : JVal) (kvs : List (String × JVal))
    (hs : status ≠ 200)
    (h1 : jGetD parsed "response" (.jobj []) = .ok r1)
    (h2 : jGetD r1 "errormessage" (.jobj []) = .ok r2)
    (h3 : jGetD r2 "error" (.jobj []) = .ok (.jobj kvs)) :
    parse_response dsi objName status body (some parsed) =
      ⟨.error (classifyHttp status parsed kvs ((jLookup kvs "correction").getD (.jobj []))), []⟩ := by
  simp only [parse_response, if_neg hs]
  rw [tailClassify_eq status parsed r1 r2 kvs h1 h2 h3]

/-- `jeqStr` on a string value is string equality. -/
lemma jeqStr_lit (a b : String) : jeqStr (.jstr a) b = (a == b) := rfl

/-- Reduction of the HTTP-200 block down to the `result.status == "success"`
branch: the return value is `api_response["result"]["data"][objName]`,
looked up with Python `[]` semantics, and nothing is logged. -/
lemma block200_result_success (dsi : JVal → JVal) (objName : String)
    (parsed resp ctl op auth ast res : JVal)
    (h1 : jIndex parsed "response" = .ok resp)
    (h2 : jIndex resp "control" = .ok ctl)
    (h3 : jIndex ctl "status" = .ok (.jstr "success"))
    (h4 : jIndex resp "operation" = .ok op)
    (h5 : jIndex op "authentication" = .ok auth)
    (h6 : jIndex auth "status" = .ok ast)
    (h7 : jeqStr ast "failure" = false)
    (h8 : jIndex op "result" = .ok res)
    (h9 : jIndex res "status" = .ok (.jstr "success")) :
    block200 dsi objName parsed =
      (match jIndex res "data" with
       | .error e => (B200.raised e, [])
       | .ok dat =>
         match jIndex dat objName with
         | .error e => (B200.raised e, [])
         | .ok recs => (B200.ret recs, [])) := by
  simp [block200, h1, h2, h3, h4, h5, h6, h7, h8, h9, jeqStr_lit, Except.map]

/-- Reduction of `parse_response` on the fully successful envelope: statuses
success / success / success. -/
lemma parse_response_result_success (dsi : JVal → JVal) (objName : String)
    (body : String) (parsed resp ctl op auth ast res : JVal)
    (h1 : jIndex parsed "response" = .ok resp)
    (h2 : jIndex resp "control" = .ok ctl)
    (h3 : jIndex ctl "status" = .ok (.jstr "success"))
    (h4 : jIndex resp "operation" = .ok op)
    (h5 : jIndex op "authentication" = .ok auth)
    (h6 : jIndex auth "status" = .ok ast)
    (h7 : jeqStr ast "failure" = false)
    (h8 : jIndex op "result" = .ok res)
    (h9 : jIndex res "status" = .ok (.jstr "success")) :
    parse_response dsi objName 200 body (some parsed) =
      ⟨(do
        let dat ← jIndex res "data"
        jIndex dat objName), []⟩ := by
  simp only [parse_response, if_pos]
  rw [block200_result_success dsi objName parsed resp ctl op auth ast res
    h1 h2 h3 h4 h5 h6 h7 h8 h9]
  cases hd : jIndex res "data" with
  | error e => simp [Bind.bind, Except.bind, hd]
  | ok dat => cases ho : jIndex dat objName <;> simp [Bind.bind, Except.bind, hd, ho]

/-- Reduction of the HTTP-200 block down to the `result.status == "failure"`
branch: the operation payload is logged and control falls through to the
common tail. -/
lemma block200_result_failure (dsi : JVal → JVal) (objName : String)
    (parsed resp ctl op auth ast res rst e1 e2 ev d2 : JVal)
    (h1 : jIndex parsed "response" = .ok resp)
    (h2 : jIndex resp "control" = .ok ctl)
    (h3 : jIndex ctl "status" = .ok (.jstr "success"))
    (h4 : jIndex resp "operation" = .ok op)
    (h5 : jIndex op "authentication" = .ok auth)
    (h6 : jIndex auth "status" = .ok ast)
    (h7 : jeqStr ast "failure" = false)
    (h8 : jIndex op "result" = .ok res)
    (h9 : jIndex res "status" = .ok rst)
    (h10 : jeqStr rst "success" = false)
    (h11 : jGetD op "result" (.jobj []) = .ok e1)
    (h12 : jGetD e1 "errormessage" (.jobj []) = .ok e2)
    (h13 : jGetD e2 "error" (.jobj []) = .ok ev)
    (h14 : desc2Of ev = .ok d2) :
    block200 dsi objName parsed = (.fell, [op]) := by
  simp [block200, h1, h2, h3, h4, h5, h6, h7, h8, h9, h10, h11, h12, h13, h14,
    jeqStr_lit, Except.map, Bind.bind, Except.bind]

/-- Reduction of `parse_response` on the 200 / control-success /
auth-success / result-failure path with the tail extraction succeeding. -/
lemma parse_response_result_failure (dsi : JVal → JVal) (objName : String)
    (body : String) (parsed resp ctl op auth ast res rst e1 e2 ev d2 r1 r2 : JVal)
    (kvs : List (String × JVal))
    (h1 : jIndex parsed "response" = .ok resp)
    (h2 : jIndex resp "control" = .ok ctl)
    (h3 : jIndex ctl "status" = .ok (.jstr "success"))
    (h4 : jIndex resp "operation" = .ok op)
    (h5 : jIndex op "authentication" = .ok auth)
    (h6 : jIndex auth "status" = .ok ast)
    (h7 : jeqStr ast "failure" = false)
    (h8 : jIndex op "result" = .ok res)
    (h9 : jIndex res "status" = .ok rst)
    (h10 : jeqStr rst "success" = false)
    (h11 : jGetD op "result" (.jobj []) = .ok e1)
    (h12 : jGetD e1 "errormessage" (.jobj []) = .ok e2)
    (h13 : jGetD e2 "error" (.jobj []) = .ok ev)
    (h14 : desc2Of ev = .ok d2)
    (ht1 : jGetD parsed "response" (.jobj []) = .ok r1)
    (ht2 : jGetD r1 "errormessage" (.jobj []) = .ok r2)
    (ht3 : jGetD r2 "error" (.jobj []) = .ok (.jobj kvs)) :
    parse_response dsi objName 200 body (some parsed) =
      ⟨.error (classifyHttp 200 parsed kvs ((jLookup kvs "correction").getD (.jobj []))), [op]⟩ := by
  simp only [parse_response, if_pos]
  rw [block200_result_failure dsi objName parsed resp ctl op auth ast res rst e1 e2 ev d2
    h1 h2 h3 h4 h5 h6 h7 h8 h9 h10 h11 h12 h13 h14]
  rw [tailClassify_eq 200 parsed r1 r2 kvs ht1 ht2 ht3]

/-! ## Claim C4 -/

/-- Claim C4: when the response body fails XML decoding, the parser
classifies by HTTP status first: 502 raises BadGateway, 503 OfflineService,
429 RateLimit, and any other status (200 included) InvalidXmlResponse
carrying the status code and the raw body. -/
theorem claim_C4 (dsi : JVal → JVal) (objName : String) (status : Nat)
    (body : String) :
    (status = 502 → parse_response dsi objName status body none =
      ⟨.error (.badGateway status body), []⟩) ∧
    (status = 503 → parse_response dsi objName status body none =
      ⟨.error (.offlineService status body), []⟩) ∧
    (status = 429 → parse_response dsi objName status body none =
      ⟨.error (.rateLimit status body), []⟩) ∧
    (status ≠ 502 → status ≠ 503 → status ≠ 429 →
      parse_response dsi objName status body none =
        ⟨.error (.invalidXmlResponse status body), []⟩) := by
  refine ⟨?_, ?_, ?_, ?_⟩
  · intro h; subst h; rfl
  · intro h; subst h; rfl
  · intro h; subst h; rfl
  · intro h1 h2 h3; simp [parse_response, decodeFailErr, h1, h2, h3]

/-- Witness for C4: a malformed body with HTTP 200 is classified as
InvalidXmlResponse carrying status and raw body. -/
theorem claim_C4_witness :
    parse_response (fun v => v) "VENDOR" 200 "<html>oops" none =
      ⟨.error (.invalidXmlResponse 200 "<html>oops"), []⟩ :=
  (claim_C4 (fun v => v) "VENDOR" 200 "<html>oops").2.2.2
    (by decide) (by decide) (by decide)

/-! ## Claim C8 -/

/-- Claim C8: the request builder raises the unsupported-stream error
exactly for the reserved stream name `audit_history`, independently of any
other input, i.e. before any request body is built. -/
theorem claim_C8 (cfg : StreamCfg) (startTs now : PyDateTime) (uuid : String) :
    prepare_request_payload cfg startTs now uuid =
      .error "TODO hanlde audit streams" ↔ cfg.name = "audit_history" := by
  unfold prepare_request_payload
  by_cases h : cfg.name = "audit_history"
  · simp [h]
  · simp [h]

/-- A reserved-name stream configuration. -/
def auditCfg : StreamCfg :=
  ⟨"audit_history", "AUDITHISTORY", ["RECORDNO"], "ACCESSTIME", "S", "P", "SESS"⟩

/-- Witness for C8: the reserved stream name fails fast. -/
theorem claim_C8_witness :
    prepare_request_payload auditCfg ⟨2024, 1, 1, 0, 0, 0, 0⟩
      ⟨2024, 1, 2, 3, 4, 5, 6⟩ "u-1" = .error "TODO hanlde audit streams" :=
  (claim_C8 auditCfg ⟨2024, 1, 1, 0, 0, 0, 0⟩ ⟨2024, 1, 2, 3, 4, 5, 6⟩ "u-1").mpr rfl

/-! ## Claim C6 -/

/-- Claim C6: the date normalizer first attempts `MM/DD/YYYY HH:MM:SS`, only
on failure attempts `MM/DD/YYYY`, and otherwise raises the Invalid Date
Format error naming the offending string; the three reference inputs
behave as specified. -/
theorem claim_C6 :
    (∀ s d, strptimeFull s = some d → parseToDatetime s = .ok d) ∧
    (∀ s d, strptimeFull s = none → strptimeDateOnly s = some d →
      parseToDatetime s = .ok d) ∧
    (∀ s, strptimeFull s = none → strptimeDateOnly s = none →
      parseToDatetime s = .error ("Invalid date format: " ++ s)) ∧
    parseToDatetime "01/15/2024 13:45:00" = .ok ⟨2024, 1, 15, 13, 45, 0, 0⟩ ∧
    parseToDatetime "01/15/2024" = .ok ⟨2024, 1, 15, 0, 0, 0, 0⟩ ∧
    parseToDatetime "not-a-date" = .error "Invalid date format: not-a-date" := by
  refine ⟨?_, ?_, ?_, by rfl, by rfl, by rfl⟩
  · intro s d h; unfold parseToDatetime; rw [h]
  · intro s d h1 h2; unfold parseToDatetime; rw [h1, h2]
  · intro s h1 h2; unfold parseToDatetime; rw [h1, h2]

/-- Witness for C6: a date-only string is parsed by the second format after
the first fails. -/
theorem claim_C6_witness :
    parseToDatetime "12/31/2024" = .ok ⟨2024, 12, 31, 0, 0, 0, 0⟩ :=
  claim_C6.2.1 "12/31/2024" ⟨2024, 12, 31, 0, 0, 0, 0⟩ (by rfl) (by rfl)

/-! ## Claim C3 -/

/-- Claim C3: once a decoded response reaches HTTP-status-driven
classification, the raised error is: AuthFailure for 400 with embedded
error code GW-0011, InvalidRequest for other 400, InvalidToken for 401,
NoPrivilege for 403, NotFound for 404, ExpiredToken for 498,
InternalServerError for 500; for any other status, the transient-retry
error when the correction text contains "Please Try Again Later", else the
generic SDK error wrapping the full parsed response. -/
theorem claim_C3 :
    (∀ dsi objName status body parsed r1 r2 kvs, status ≠ 200 →
      jGetD parsed "response" (.jobj []) = .ok r1 →
      jGetD r1 "errormessage" (.jobj []) = .ok r2 →
      jGetD r2 "error" (.jobj []) = .ok (.jobj kvs) →
      parse_response dsi objName status body (some parsed) =
        ⟨.error (classifyHttp status parsed kvs
          ((jLookup kvs "correction").getD (.jobj []))), []⟩) ∧
    (∀ status parsed kvs correction,
      (status = 400 → jeqStr ((jLookup kvs "errorno").getD .jnull) "GW-0011" = true →
        classifyHttp status parsed kvs correction = .authFailure parsed) ∧
      (status = 400 → jeqStr ((jLookup kvs "errorno").getD .jnull) "GW-0011" = false →
        classifyHttp status parsed kvs correction = .invalidRequest "Invalid request" parsed) ∧
      (status = 401 → classifyHttp status parsed kvs correction = .invalidToken parsed) ∧
      (status = 403 → classifyHttp status parsed kvs correction = .noPrivilege parsed) ∧
      (status = 404 → classifyHttp status parsed kvs correction = .notFound parsed) ∧
      (status = 498 → classifyHttp status parsed kvs correction = .expiredToken parsed) ∧
      (status = 500 → classifyHttp status parsed kvs correction = .internalServerError parsed) ∧
      (status ≠ 400 → status ≠ 401 → status ≠ 403 → status ≠ 404 → status ≠ 498 →
        status ≠ 500 →
        (pyTruthy correction && pyContainsStr "Please Try Again Later" correction) = true →
        classifyHttp status parsed kvs correction = .pleaseTryAgainLater parsed) ∧
      (status ≠ 400 → status ≠ 401 → status ≠ 403 → status ≠ 404 → status ≠ 498 →
        status ≠ 500 →
        (pyTruthy correction && pyContainsStr "Please Try Again Later" correction) = false →
        classifyHttp status parsed kvs correction = .sdkError parsed)) := by
  constructor
  · intro dsi objName status body parsed r1 r2 kvs hs h1 h2 h3
    exact parse_response_tail dsi objName status body parsed r1 r2 kvs hs h1 h2 h3
  · intro status parsed kvs correction
    refine ⟨?_, ?_, ?_, ?_, ?_, ?_, ?_, ?_, ?_⟩ <;> intros <;> simp_all [classifyHttp]

/-- The decoded error page used in the C3 witness. -/
def c3Env : JVal :=
  .jobj [("response", .jobj [("errormessage", .jobj [("error", .jobj [])])])]

/-- The intermediate values of the tail extraction on `c3Env`. -/
def c3R1 : JVal := .jobj [("errormessage", .jobj [("error", .jobj [])])]

/-- Second intermediate value of the tail extraction on `c3Env`. -/
def c3R2 : JVal := .jobj [("error", .jobj [])]

/-- Witness for C3: a decodable 404 response raises NotFound. -/
theorem claim_C3_witness :
    parse_response (fun v => v) "VENDOR" 404 "" (some c3Env) =
      ⟨.error (classifyHttp 404 c3Env [] ((jLookup [] "correction").getD (.jobj []))), []⟩ ∧
    classifyHttp 404 c3Env [] (.jobj []) = .notFound c3Env :=
  ⟨claim_C3.1 (fun v => v) "VENDOR" 404 "" c3Env c3R1 c3R2 [] (by decide)
      (by rfl) (by rfl) (by rfl),
   (claim_C3.2 404 c3Env [] (.jobj [])).2.2.2.2.1 rfl⟩

/-! ## Claim C1 -/

/-- A 200 envelope whose `result.data` holds a single mapping under the
object name. -/
def c1EnvSingle : JVal :=
  .jobj [("response", .jobj [
    ("control", .jobj [("status", .jstr "success")]),
    ("operation", .jobj [
      ("authentication", .jobj [("status", .jstr "success")]),
      ("result", .jobj [
        ("status", .jstr "success"),
        ("data", .jobj [("VENDOR", .jobj [("NAME", .jstr "Acme")])])])])])]

/-- A 200 envelope whose `result` has no `data` entry. -/
def c1EnvAbsent : JVal :=
  .jobj [("response", .jobj [
    ("control", .jobj [("status", .jstr "success")]),
    ("operation", .jobj [
      ("authentication", .jobj [("status", .jstr "success")]),
      ("result", .jobj [("status", .jstr "success")])])])]

/-- Counterexample to C1 as stated: on a fully successful envelope the
parser returns `result.data[objName]` raw — a single mapping is returned as
a mapping, not a one-element list, and an absent `data` entry raises
`KeyError("data")` instead of yielding an empty list. -/
theorem claim_C1_counterexample :
    parse_response (fun v => v) "VENDOR" 200 "" (some c1EnvSingle) =
      ⟨.ok (.jobj [("NAME", .jstr "Acme")]), []⟩ ∧
    JVal.isArr (.jobj [("NAME", .jstr "Acme")]) = false ∧
    (parse_response (fun v => v) "VENDOR" 200 "" (some c1EnvAbsent)).outcome =
      .error (.pyKeyError "data") :=
  ⟨rfl, rfl, rfl⟩

/-- Claim C1 (amended): on every 200 response with control status, auth
status and result status all "success", the parser returns
`operation.result.data[objName]` exactly as decoded — a list as-is, a
single mapping as that mapping, and a Python `KeyError` when `data` or
the object-name entry is absent — and logs nothing. -/
theorem claim_C1 (dsi : JVal → JVal) (objName : String) (body : String)
    (parsed resp ctl op auth ast res : JVal)
    (h1 : jIndex parsed "response" = .ok resp)
    (h2 : jIndex resp "control" = .ok ctl)
    (h3 : jIndex ctl "status" = .ok (.jstr "success"))
    (h4 : jIndex resp "operation" = .ok op)
    (h5 : jIndex op "authentication" = .ok auth)
    (h6 : jIndex auth "status" = .ok ast)
    (h7 : jeqStr ast "failure" = false)
    (h8 : jIndex op "result" = .ok res)
    (h9 : jIndex res "status" = .ok (.jstr "success")) :
    parse_response dsi objName 200 body (some parsed) =
      ⟨(do
        let dat ← jIndex res "data"
        jIndex dat objName), []⟩ :=
  parse_response_result_success dsi objName body parsed resp ctl op auth ast res
    h1 h2 h3 h4 h5 h6 h7 h8 h9

/-- `result` object of the C1 witness envelope: `data` holds a two-element
list. -/
def c1ResL : JVal :=
  .jobj [("status", .jstr "success"),
    ("data", .jobj [("VENDOR", .jarr [.jobj [("N", .jstr "1")], .jobj [("N", .jstr "2")]])])]

/-- `authentication` object of the C1 witness envelope. -/
def c1AuthL : JVal := .jobj [("status", .jstr "success")]

/-- `operation` object of the C1 witness envelope. -/
def c1OpL : JVal := .jobj [("authentication", c1AuthL), ("result", c1ResL)]

/-- `control` object of the C1 witness envelope. -/
def c1CtlL : JVal := .jobj [("status", .jstr "success")]

/-- `response` object of the C1 witness envelope. -/
def c1RespL : JVal := .jobj [("control", c1CtlL), ("operation", c1OpL)]

/-- The C1 witness envelope. -/
def c1EnvList : JVal := .jobj [("response", c1RespL)]

/-- Witness for C1 (amended): a list-valued `data` entry is returned as-is
(cardinality N). -/
theorem claim_C1_witness :
    parse_response (fun v => v) "VENDOR" 200 "" (some c1EnvList) =
      ⟨.ok (.jarr [.jobj [("N", .jstr "1")], .jobj [("N", .jstr "2")]]), []⟩ :=
  claim_C1 (fun v => v) "VENDOR" "" c1EnvList c1RespL c1CtlL c1OpL c1AuthL
    (.jstr "success") c1ResL (by rfl) (by rfl) (by rfl) (by rfl) (by rfl)
    (by rfl) (by rfl) (by rfl) (by rfl)

/-! ## Claim C2 -/

/-- A 200 response whose decoded tree has no `response` root. -/
def c2Env : JVal := .jobj [("notresponse", .jnull)]

/-- Counterexample to C2 as stated: a 200 response whose decoded body lacks
the `response` key escapes with a raw Python `KeyError`, which is outside
the classified taxonomy. -/
theorem claim_C2_counterexample :
    (parse_response (fun v => v) "VENDOR" 200 "" (some c2Env)).outcome =
      .error (.pyKeyError "response") ∧
    isClassified (.pyKeyError "response") = false :=
  ⟨rfl, rfl⟩

/-- Claim C2 (amended): every decode-failure path raises exactly one
classified error, and for a non-200 status whose decoded body supports the
`.get` extraction chain the raised error is the (always classified)
HTTP-status classification; only 200 responses with unexpected envelope
shapes can escape with unclassified Python errors. -/
theorem claim_C2 :
    (∀ dsi objName status body,
      (parse_response dsi objName status body none).outcome =
        .error (decodeFailErr status body) ∧
      isClassified (decodeFailErr status body) = true) ∧
    (∀ dsi objName status body parsed r1 r2 kvs, status ≠ 200 →
      jGetD parsed "response" (.jobj []) = .ok r1 →
      jGetD r1 "errormessage" (.jobj []) = .ok r2 →
      jGetD r2 "error" (.jobj []) = .ok (.jobj kvs) →
      (parse_response dsi objName status body (some parsed)).outcome =
        .error (classifyHttp status parsed kvs
          ((jLookup kvs "correction").getD (.jobj []))) ∧
      isClassified (classifyHttp status parsed kvs
        ((jLookup kvs "correction").getD (.jobj []))) = true) := by
  constructor
  · intro dsi objName status body
    exact ⟨rfl, isClassified_decodeFailErr status body⟩
  · intro dsi objName status body parsed r1 r2 kvs hs h1 h2 h3
    rw [parse_response_tail dsi objName status body parsed r1 r2 kvs hs h1 h2 h3]
    exact ⟨rfl, isClassified_classifyHttp _ _ _ _⟩

/-- The decoded error page of the C2 witness: a 429 whose body decodes and
carries a transient-retry correction. -/
def c2TailEnv : JVal :=
  .jobj [("response", .jobj [("errormessage", .jobj [("error",
    .jobj [("correction", .jstr "Busy -- Please Try Again Later")])])])]

/-- First intermediate value of the tail extraction on `c2TailEnv`. -/
def c2TR1 : JVal :=
  .jobj [("errormessage", .jobj [("error",
    .jobj [("correction", .jstr "Busy -- Please Try Again Later")])])]

/-- Second intermediate value of the tail extraction on `c2TailEnv`. -/
def c2TR2 : JVal :=
  .jobj [("error", .jobj [("correction", .jstr "Busy -- Please Try Again Later")])]

/-- Witness for C2 (amended): a decodable 429 body ends in exactly one
classified error. -/
theorem claim_C2_witness :
    (parse_response (fun v => v) "VENDOR" 429 "" (some c2TailEnv)).outcome =
      .error (classifyHttp 429 c2TailEnv
        [("correction", .jstr "Busy -- Please Try Again Later")]
        ((jLookup [("correction", .jstr "Busy -- Please Try Again Later")]
          "correction").getD (.jobj []))) ∧
    isClassified (classifyHttp 429 c2TailEnv
      [("correction", .jstr "Busy -- Please Try Again Later")]
      ((jLookup [("correction", .jstr "Busy -- Please Try Again Later")]
        "correction").getD (.jobj []))) = true :=
  claim_C2.2 (fun v => v) "VENDOR" 429 "" c2TailEnv c2TR1 c2TR2
    [("correction", .jstr "Busy -- Please Try Again Later")] (by decide)
    (by rfl) (by rfl) (by rfl)

/-! ## Claim C5 -/

/-- Counterexample to C5 as stated: when the error payload is a mapping
without `description2`, the extracted value is Python `None`, not the empty
string. -/
theorem claim_C5_counterexample :
    desc2Of (.jobj []) = .ok .jnull ∧ JVal.jnull ≠ JVal.jstr "" :=
  ⟨rfl, fun h => JVal.noConfusion h⟩

/-- Claim C5 (amended): on a 200 response whose result status is not
"success", the parser logs exactly the operation payload at error severity
(no other path logs), extracts `description2` handling mapping and
non-empty-list payloads but defaulting to `None` when a mapping lacks the
key (empty string only for empty-list or non-mapping payloads), and — the
extracted text being unused — raises the HTTP classification for status
200, which is the generic SDK error wrapping the full parsed response
whenever the correction check fails. -/
theorem claim_C5 :
    (∀ dsi objName body parsed resp ctl op auth ast res rst e1 e2 ev d2 r1 r2 kvs,
      jIndex parsed "response" = .ok resp →
      jIndex resp "control" = .ok ctl →
      jIndex ctl "status" = .ok (.jstr "success") →
      jIndex resp "operation" = .ok op →
      jIndex op "authentication" = .ok auth →
      jIndex auth "status" = .ok ast →
      jeqStr ast "failure" = false →
      jIndex op "result" = .ok res →
      jIndex res "status" = .ok rst →
      jeqStr rst "success" = false →
      jGetD op "result" (.jobj []) = .ok e1 →
      jGetD e1 "errormessage" (.jobj []) = .ok e2 →
      jGetD e2 "error" (.jobj []) = .ok ev →
      desc2Of ev = .ok d2 →
      jGetD parsed "response" (.jobj []) = .ok r1 →
      jGetD r1 "errormessage" (.jobj []) = .ok r2 →
      jGetD r2 "error" (.jobj []) = .ok (.jobj kvs) →
      parse_response dsi objName 200 body (some parsed) =
        ⟨.error (classifyHttp 200 parsed kvs
          ((jLookup kvs "correction").getD (.jobj []))), [op]⟩) ∧
    (∀ parsed kvs correction,
      (pyTruthy correction && pyContainsStr "Please Try Again Later" correction) = false →
      classifyHttp 200 parsed kvs correction = .sdkError parsed) ∧
    (∀ dsi objName status body dec, status ≠ 200 →
      (parse_response dsi objName status body dec).logs = []) ∧
    (∀ dsi objName status body,
      (parse_response dsi objName status body none).logs = []) ∧
    (∀ kvs v, jLookup kvs "description2" = some v → desc2Of (.jobj kvs) = .ok v) ∧
    (∀ kvs, jLookup kvs "description2" = none → desc2Of (.jobj kvs) = .ok .jnull) ∧
    (∀ kvs rest, desc2Of (.jarr (.jobj kvs :: rest)) =
      .ok ((jLookup kvs "description2").getD .jnull)) ∧
    desc2Of (.jarr []) = .ok (.jstr "") := by
  refine ⟨?_, ?_, ?_, ?_, ?_, ?_, ?_, rfl⟩
  · intro dsi objName body parsed resp ctl op auth ast res rst e1 e2 ev d2 r1 r2 kvs
      h1 h2 h3 h4 h5 h6 h7 h8 h9 h10 h11 h12 h13 h14 ht1 ht2 ht3
    exact parse_response_result_failure dsi objName body parsed resp ctl op auth ast
      res rst e1 e2 ev d2 r1 r2 kvs h1 h2 h3 h4 h5 h6 h7 h8 h9 h10 h11 h12 h13 h14
      ht1 ht2 ht3
  · intro parsed kvs correction h
    simp [classifyHttp, h]
  · intro dsi objName status body dec hs
    cases dec with
    | none => rfl
    | some parsed => simp [parse_response, hs]
  · intro dsi objName status body; rfl
  · intro kvs v h; simp [desc2Of, h]
  · intro kvs h; simp [desc2Of, h]
  · intro kvs rest; rfl

/-- `result` object of the C5 witness envelope (status "failure" with a
`description2`). -/
def c5Res : JVal :=
  .jobj [("status", .jstr "failure"),
    ("errormessage", .jobj [("error", .jobj [("description2", .jstr "boom")])])]

/-- `authentication` object of the C5 witness envelope. -/
def c5Auth : JVal := .jobj [("status", .jstr "success")]

/-- `operation` object of the C5 witness envelope. -/
def c5Op : JVal := .jobj [("authentication", c5Auth), ("result", c5Res)]

/-- `control` object of the C5 witness envelope. -/
def c5Ctl : JVal := .jobj [("status", .jstr "success")]

/-- `response` object of the C5 witness envelope. -/
def c5Resp : JVal := .jobj [("control", c5Ctl), ("operation", c5Op)]

/-- The C5 witness envelope. -/
def c5Env : JVal := .jobj [("response", c5Resp)]

/-- Witness for C5 (amended): a 200 result-failure response logs the
operation payload and raises the generic SDK error wrapping the parsed
response. -/
theorem claim_C5_witness :
    parse_response (fun v => v) "VENDOR" 200 "" (some c5Env) =
      ⟨.error (.sdkError c5Env), [c5Op]⟩ :=
  claim_C5.1 (fun v => v) "VENDOR" "" c5Env c5Resp c5Ctl c5Op c5Auth
    (.jstr "success") c5Res (.jstr "failure") c5Res
    (.jobj [("error", .jobj [("description2", .jstr "boom")])])
    (.jobj [("description2", .jstr "boom")]) (.jstr "boom") c5Resp (.jobj []) []
    (by rfl) (by rfl) (by rfl) (by rfl) (by rfl) (by rfl) (by rfl) (by rfl)
    (by rfl) (by rfl) (by rfl) (by rfl) (by rfl) (by rfl) (by rfl) (by rfl) (by rfl)

/-! ## Claim C7 -/

/-- Updating a key rewrites its looked-up value. -/
lemma rowLookup_rowUpdate_self (row : List (String × Cell)) (f : String) (v : Cell) :
    rowLookup (rowUpdate row f v) f = (rowLookup row f).map fun _ => v := by
  induction row with
  | nil => rfl
  | cons p t ih =>
    obtain ⟨k, w⟩ := p
    by_cases h : k = f
    · simp [rowUpdate, rowLookup, h]
    · simp [rowUpdate, rowLookup, h, ih]

/-- Updating a key leaves every other key's looked-up value unchanged. -/
lemma rowLookup_rowUpdate_other (row : List (String × Cell)) (f g : String)
    (v : Cell) (h : g ≠ f) :
    rowLookup (rowUpdate row f v) g = rowLookup row g := by
  induction row with
  | nil => rfl
  | cons p t ih =>
    obtain ⟨k, w⟩ := p
    by_cases hk : k = f
    · subst hk
      simp [rowUpdate, rowLookup, Ne.symm h, ih]
    · by_cases hg : k = g
      · simp [rowUpdate, rowLookup, hk, hg, h]
      · simp [rowUpdate, rowLookup, hk, hg, ih]

/-- Claim C7: when `post_process` succeeds, every declared date-time field
holding a string has been replaced by its parsed datetime, null-valued
declared fields pass through untouched, undeclared fields are unchanged,
and every declared field was present; failure of any field aborts the whole
record (the `Except` result), so no partially-normalized record is ever
returned. -/
theorem claim_C7 (fields : List String) (row out : List (String × Cell))
    (hnd : fields.Nodup) (h : post_process fields row = .ok out) :
    (∀ f, f ∉ fields → rowLookup out f = rowLookup row f) ∧
    (∀ f ∈ fields, ∀ s, rowLookup row f = some (.vstr s) →
      ∃ d, parseToDatetime s = .ok d ∧ rowLookup out f = some (.vdt d)) ∧
    (∀ f ∈ fields, rowLookup row f = some .vnull → rowLookup out f = some .vnull) ∧
    (∀ f ∈ fields, rowLookup row f ≠ none) := by
  induction fields generalizing row with
  | nil =>
    simp [post_process, List.foldlM, pure, Except.pure] at h
    subst h
    refine ⟨fun f _ => rfl, ?_, ?_, ?_⟩ <;> intro f hf <;> simp at hf
  | cons f fs ih =>
    simp only [post_process, List.foldlM_cons] at h
    rcases hpf : processField row f with e | row1
    · rw [hpf] at h; simp [Bind.bind, Except.bind] at h
    · rw [hpf] at h
      simp only [Bind.bind, Except.bind] at h
      have h' : post_process fs row1 = .ok out := h
      have hf : f ∉ fs := (List.nodup_cons.mp hnd).1
      have hnd' : fs.Nodup := (List.nodup_cons.mp hnd).2
      obtain ⟨I1, I2, I3, I4⟩ := ih row1 hnd' h'
      unfold processField at hpf
      rcases hl : rowLookup row f with _ | c
      · rw [hl] at hpf
        exact Except.noConfusion
          (show Except.error (PErr.keyErr f) = Except.ok row1 from hpf)
      · rw [hl] at hpf
        cases c with
        | vnull =>
          have hrow : Except.ok (ε := PErr) row = Except.ok row1 := hpf
          injection hrow with hx
          subst hx
          refine ⟨?_, ?_, ?_, ?_⟩
          · intro g hg
            exact I1 g fun hx => hg (List.mem_cons_of_mem f hx)
          · intro g hgmem s hgl
            rcases List.mem_cons.mp hgmem with hgf | hgfs
            · subst hgf; rw [hl] at hgl; simp at hgl
            · exact I2 g hgfs s hgl
          · intro g hgmem hgl
            rcases List.mem_cons.mp hgmem with hgf | hgfs
            · subst hgf; rw [I1 g hf]; exact hgl
            · exact I3 g hgfs hgl
          · intro g hgmem
            rcases List.mem_cons.mp hgmem with hgf | hgfs
            · subst hgf; rw [hl]; exact fun hx => Option.noConfusion hx
            · exact I4 g hgfs
        | vstr s =>
          have hpf2 : (match parseToDatetime s with
              | .ok d => Except.ok (rowUpdate row f (.vdt d))
              | .error m => Except.error (PErr.valueErr m)) = Except.ok row1 := hpf
          cases hp : parseToDatetime s with
          | error m => rw [hp] at hpf2; exact Except.noConfusion hpf2
          | ok d =>
            rw [hp] at hpf2
            injection hpf2 with hx
            subst hx
            have Lself : rowLookup (rowUpdate row f (.vdt d)) f = some (.vdt d) := by
              rw [rowLookup_rowUpdate_self, hl]; rfl
            refine ⟨?_, ?_, ?_, ?_⟩
            · intro g hg
              have hg1 : g ∉ fs := fun hx => hg (List.mem_cons_of_mem f hx)
              have hg2 : g ≠ f := fun hx => hg (hx ▸ List.mem_cons_self f fs)
              rw [I1 g hg1, rowLookup_rowUpdate_other row f g (.vdt d) hg2]
            · intro g hgmem s' hgl
              rcases List.mem_cons.mp hgmem with hgf | hgfs
              · subst hgf
                rw [hl] at hgl
                injection hgl with hy
                injection hy with hs
                subst hs
                exact ⟨d, hp, by rw [I1 g hf]; exact Lself⟩
              · have hg2 : g ≠ f := fun hx => hf (hx ▸ hgfs)
                exact I2 g hgfs s' (by
                  rw [rowLookup_rowUpdate_other row f g (.vdt d) hg2]; exact hgl)
            · intro g hgmem hgl
              rcases List.mem_cons.mp hgmem with hgf | hgfs
              · subst hgf; rw [hl] at hgl; simp at hgl
              · have hg2 : g ≠ f := fun hx => hf (hx ▸ hgfs)
                exact I3 g hgfs (by
                  rw [rowLookup_rowUpdate_other row f g (.vdt d) hg2]; exact hgl)
            · intro g hgmem
              rcases List.mem_cons.mp hgmem with hgf | hgfs
              · subst hgf; rw [hl]; exact fun hx => Option.noConfusion hx
              · intro hx
                exact I4 g hgfs (by
                  have hg2 : g ≠ f := fun he => hf (he ▸ hgfs)
                  rw [rowLookup_rowUpdate_other row f g (.vdt d) hg2]; exact hx)
        | vdt d0 =>
          exact Except.noConfusion
            (show Except.error PErr.typeErr = Except.ok row1 from hpf)

/-- The C7 witness record. -/
def c7Row : List (String × Cell) :=
  [("WHENMODIFIED", .vstr "01/15/2024 13:45:00"), ("WHENDUE", .vnull),
   ("RECORDNO", .vstr "77")]

/-- The C7 witness record after post-processing. -/
def c7Out : List (String × Cell) :=
  [("WHENMODIFIED", .vdt ⟨2024, 1, 15, 13, 45, 0, 0⟩), ("WHENDUE", .vnull),
   ("RECORDNO", .vstr "77")]

/-- Witness for C7: on a concrete record the declared string field is
transformed, the declared null field and the undeclared field are
untouched. -/
theorem claim_C7_witness :
    (∀ f, f ∉ ["WHENMODIFIED", "WHENDUE"] → rowLookup c7Out f = rowLookup c7Row f) ∧
    (∀ f ∈ ["WHENMODIFIED", "WHENDUE"], ∀ s, rowLookup c7Row f = some (.vstr s) →
      ∃ d, parseToDatetime s = .ok d ∧ rowLookup c7Out f = some (.vdt d)) ∧
    (∀ f ∈ ["WHENMODIFIED", "WHENDUE"], rowLookup c7Row f = some .vnull →
      rowLookup c7Out f = some .vnull) ∧
    (∀ f ∈ ["WHENMODIFIED", "WHENDUE"], rowLookup c7Row f ≠ none) :=
  claim_C7 ["WHENMODIFIED", "WHENDUE"] c7Row c7Out (by decide) (by rfl)

/-! ## Claim C10 -/

/-- Run an `Except String String` to its carried string (either side). -/
def exOut : Except String String → String
  | .ok s => s
  | .error e => e

/-- A concrete stream configuration for the C10 theorems. -/
def c10Cfg : StreamCfg :=
  ⟨"accounts_payable_bills", "APBILL", ["RECORDNO", "WHENMODIFIED"],
   "WHENMODIFIED", "senderA", "pwA", "sess-1"⟩

/-- Counterexample to C10 as stated: with stream descriptor, watermark,
session id and credentials all fixed, two invocations at different
wall-clock instants and with different generated UUIDs produce different
request bodies (the source stamps `datetime.now()` and `uuid.uuid4()` into
the envelope). -/
theorem claim_C10_counterexample :
    exOut (prepare_request_payload c10Cfg ⟨2024, 1, 1, 0, 0, 0, 0⟩
      ⟨2024, 5, 1, 12, 0, 0, 0⟩ "uuid-a") ≠
    exOut (prepare_request_payload c10Cfg ⟨2024, 1, 1, 0, 0, 0, 0⟩
      ⟨2024, 5, 1, 12, 0, 1, 0⟩ "uuid-b") := by decide

/-- Claim C10 (amended): the request builder is a pure function of the
stream descriptor, watermark, credentials, the wall-clock instant and the
generated UUID; invocations that differ only in the instant and the UUID
produce bodies identical outside the two control-id fields, and for
non-reserved streams the output is exactly the serialized `dict_body`. -/
theorem claim_C10 :
    (∀ cfg startTs t1 u1 t2 u2,
      maskControlIds (dictBody cfg startTs t1 u1) =
        maskControlIds (dictBody cfg startTs t2 u2)) ∧
    (∀ cfg startTs now uuid, cfg.name ≠ "audit_history" →
      prepare_request_payload cfg startTs now uuid =
        .ok (unparse (dictBody cfg startTs now uuid))) := by
  constructor
  · intro cfg startTs t1 u1 t2 u2; rfl
  · intro cfg startTs now uuid h
    simp [prepare_request_payload, h]

/-- Witness for C10 (amended): the non-reserved branch produces the
serialized body. -/
theorem claim_C10_witness :
    prepare_request_payload c10Cfg ⟨2024, 1, 1, 0, 0, 0, 0⟩
      ⟨2024, 5, 1, 12, 0, 0, 0⟩ "uuid-a" =
      .ok (unparse (dictBody c10Cfg ⟨2024, 1, 1, 0, 0, 0, 0⟩
        ⟨2024, 5, 1, 12, 0, 0, 0⟩ "uuid-a")) :=
  claim_C10.2 c10Cfg ⟨2024, 1, 1, 0, 0, 0, 0⟩ ⟨2024, 5, 1, 12, 0, 0, 0⟩
    "uuid-a" (by decide)

/-! ## Claim C9

The round-trip: `strftime` zero-pads `%m %d %H %M %S` to two digits, so
each directive's regex finds the padded field as its first full match; the
candidates that regex backtracking would try after it all leave a digit
where the format requires `/`, `:`, or the end of input, so the first full
match is the only one.  The year is the exception: `%Y` is printed
unpadded, so only years of four digits (1000-9999) re-parse under the
four-digit `%Y` of the first format. -/

/-- Code point of a rendered digit. -/
lemma cv_digitChar (k : Nat) (hk : k ≤ 9) : cv (digitChar k) = 48 + k := by
  interval_cases k <;> decide

/-- All month bounds give at most 31 days. -/
lemma daysInMonth_le_31 (y m : Nat) : daysInMonth y m ≤ 31 := by
  unfold daysInMonth
  split
  · split <;> omega
  · split <;> omega

/-- `%m` on a zero-padded month: the month is the first full match; for
months 10–12 backtracking would also offer the bare leading `1`, leaving a
digit in the rest. -/
lemma matchM_pad (m : Nat) (r : List Char) (hm1 : 1 ≤ m) (hm2 : m ≤ 12) :
    matchM (pad2 m ++ r) =
      (m, r) :: (if 10 ≤ m then [(m / 10, digitChar (m % 10) :: r)] else []) := by
  have c1 := cv_digitChar (m / 10) (by omega)
  have c2 := cv_digitChar (m % 10) (by omega)
  simp only [pad2, List.cons_append, List.nil_append, matchM, c1, c2]
  split_ifs <;> first
    | omega
    | (simp only [List.append_nil, List.nil_append, List.singleton_append,
        List.cons_append, List.cons.injEq, Prod.mk.injEq, and_true, true_and] <;> omega)

/-- `%d` on a zero-padded day. -/
lemma matchD_pad (d : Nat) (r : List Char) (hd1 : 1 ≤ d) (hd2 : d ≤ 31) :
    matchD (pad2 d ++ r) =
      (d, r) :: (if 10 ≤ d then [(d / 10, digitChar (d % 10) :: r)] else []) := by
  have c1 := cv_digitChar (d / 10) (by omega)
  have c2 := cv_digitChar (d % 10) (by omega)
  simp only [pad2, List.cons_append, List.nil_append, matchD, c1, c2]
  split_ifs <;> first
    | omega
    | (simp only [List.append_nil, List.nil_append, List.singleton_append,
        List.cons_append, List.cons.injEq, Prod.mk.injEq, and_true, true_and] <;> omega)

/-- `%H` on a zero-padded hour: the second candidate is the bare leading
digit. -/
lemma matchH_pad (h : Nat) (r : List Char) (hh : h ≤ 23) :
    matchH (pad2 h ++ r) = (h, r) :: [(h / 10, digitChar (h % 10) :: r)] := by
  have c1 := cv_digitChar (h / 10) (by omega)
  have c2 := cv_digitChar (h % 10) (by omega)
  simp only [pad2, List.cons_append, List.nil_append, matchH, c1, c2]
  split_ifs <;> first
    | omega
    | (simp only [List.append_nil, List.nil_append, List.singleton_append,
        List.cons_append, List.cons.injEq, Prod.mk.injEq, and_true, true_and] <;> omega)

/-- `%M` on a zero-padded minute. -/
lemma matchMin_pad (n : Nat) (r : List Char) (hn : n ≤ 59) :
    matchMin (pad2 n ++ r) = (n, r) :: [(n / 10, digitChar (n % 10) :: r)] := by
  have c1 := cv_digitChar (n / 10) (by omega)
  have c2 := cv_digitChar (n % 10) (by omega)
  simp only [pad2, List.cons_append, List.nil_append, matchMin, c1, c2]
  split_ifs <;> first
    | omega
    | (simp only [List.append_nil, List.nil_append, List.singleton_append,
        List.cons_append, List.cons.injEq, Prod.mk.injEq, and_true, true_and] <;> omega)

/-- `%S` on a zero-padded second. -/
lemma matchSec_pad (n : Nat) (r : List Char) (hn : n ≤ 59) :
    matchSec (pad2 n ++ r) = (n, r) :: [(n / 10, digitChar (n % 10) :: r)] := by
  have c1 := cv_digitChar (n / 10) (by omega)
  have c2 := cv_digitChar (n % 10) (by omega)
  simp only [pad2, List.cons_append, List.nil_append, matchSec, c1, c2]
  split_ifs <;> first
    | omega
    | (simp only [List.append_nil, List.nil_append, List.singleton_append,
        List.cons_append, List.cons.injEq, Prod.mk.injEq, and_true, true_and] <;> omega)

/-- `%S` at the end of the input. -/
lemma matchSec_pad_nil (n : Nat) (hn : n ≤ 59) :
    matchSec (pad2 n) = (n, ([] : List Char)) :: [(n / 10, [digitChar (n % 10)])] := by
  have h := matchSec_pad n [] hn
  simpa using h

/-- `%Y` on a zero-padded year: four digits, one candidate. -/
lemma matchY_pad (y : Nat) (r : List Char) (hy : y ≤ 9999) :
    matchY (pad4 y ++ r) = [(y, r)] := by
  have c1 := cv_digitChar (y / 1000) (by omega)
  have c2 := cv_digitChar (y / 100 % 10) (by omega)
  have c3 := cv_digitChar (y / 10 % 10) (by omega)
  have c4 := cv_digitChar (y % 10) (by omega)
  simp only [pad4, List.cons_append, List.nil_append, matchY, c1, c2, c3, c4]
  split_ifs <;> first
    | omega
    | (simp only [List.cons.injEq, Prod.mk.injEq, and_true, true_and] <;> omega)

/-- A format literal consumes itself. -/
lemma matchLit_self (ch : Char) (t : List Char) : matchLit ch (ch :: t) = [t] := by
  simp [matchLit]

/-- A format literal that is not a digit rejects a digit. -/
lemma matchLit_not_digit (ch : Char) (k : Nat) (hk : k ≤ 9)
    (hch : cv ch < 48 ∨ 57 < cv ch) (t : List Char) :
    matchLit ch (digitChar k :: t) = [] := by
  show (if digitChar k = ch then [t] else []) = []
  rw [if_neg]
  intro he
  have hc := cv_digitChar k hk
  rw [he] at hc
  omega

/-- A digit is not regex whitespace. -/
lemma isWs_digitChar (n : Nat) (hn : n ≤ 9) : isWs (digitChar n) = false := by
  have c1 := cv_digitChar n hn
  simp only [isWs, c1, Bool.or_eq_false_iff, decide_eq_false_iff_not]
  omega

/-- `\s+` before a zero-padded field consumes exactly the single blank the
formatter wrote. -/
lemma wsSplits_space_pad (n : Nat) (hn : n / 10 ≤ 9) (cs : List Char) :
    wsSplits (' ' :: (pad2 n ++ cs)) = [pad2 n ++ cs] := by
  show wsSplits (' ' :: (digitChar (n / 10) :: digitChar (n % 10) :: cs)) =
    [digitChar (n / 10) :: digitChar (n % 10) :: cs]
  simp [wsSplits, isWs_digitChar (n / 10) hn, show isWs ' ' = true from rfl]

/-- The full first-format regex on a formatted timestamp finds exactly the
original fields. -/
lemma timeCands_pad (m dd y h mi s : Nat) (hm1 : 1 ≤ m) (hm2 : m ≤ 12)
    (hd1 : 1 ≤ dd) (hd2 : dd ≤ 31) (hy : y ≤ 9999) (hh : h ≤ 23)
    (hmi : mi ≤ 59) (hs : s ≤ 59) :
    timeCands (pad2 m ++ '/' :: (pad2 dd ++ '/' :: (pad4 y ++ ' ' ::
      (pad2 h ++ ':' :: (pad2 mi ++ ':' :: pad2 s))))) = [(m, dd, y, h, mi, s)] := by
  have hm9 : m % 10 ≤ 9 := by omega
  have hd9 : dd % 10 ≤ 9 := by omega
  have hh9 : h % 10 ≤ 9 := by omega
  have hmi9 : mi % 10 ≤ 9 := by omega
  have hh10 : h / 10 ≤ 9 := by omega
  have hsl : cv '/' < 48 ∨ 57 < cv '/' := Or.inl (by decide)
  have hco : cv ':' < 48 ∨ 57 < cv ':' := Or.inr (by decide)
  by_cases hm10 : 10 ≤ m <;> by_cases hd10 : 10 ≤ dd <;>
    simp [timeCands, matchM_pad, matchD_pad, matchY_pad, matchH_pad, matchMin_pad,
      matchSec_pad_nil, matchLit_self, matchLit_not_digit, wsSplits_space_pad,
      hm1, hm2, hd1, hd2, hy, hh, hmi, hs, hm9, hd9, hh9, hmi9, hh10, hsl, hco,
      hm10, hd10]

/-- The character list under a constructed string. -/
lemma data_mk (l : List Char) : (String.mk l).data = l := rfl

/-- For four-digit years the unpadded `%Y` rendering coincides with the
zero-padded one. -/
lemma yearChars_eq_pad4 (y : Nat) (hy : 1000 ≤ y) : yearChars y = pad4 y := by
  unfold yearChars
  rw [if_neg (by omega), if_neg (by omega), if_neg (by omega)]

/-- Counterexample to C9 as stated: for the valid watermark
999-01-15 13:45:00 the formatter renders the year unpadded (`%Y` on the
platform does not zero-pad below 1000), and the resulting string is
rejected by both `strptime` formats, so the round-trip fails. -/
theorem claim_C9_counterexample :
    ValidDT ⟨999, 1, 15, 13, 45, 0, 0⟩ ∧
    formatDateForIntacct ⟨999, 1, 15, 13, 45, 0, 0⟩ = "01/15/999 13:45:00" ∧
    strptimeFull "01/15/999 13:45:00" = none ∧
    parseToDatetime "01/15/999 13:45:00" =
      .error "Invalid date format: 01/15/999 13:45:00" :=
  ⟨by decide, by decide, by rfl, by rfl⟩

/-- Claim C9 (amended): for every valid watermark whose year has four
digits (1000-9999), formatting with the request builder's
`MM/DD/YYYY HH:MM:SS` format and re-parsing with the date normalizer's
first format returns the watermark truncated to whole seconds; years below
1000 are rendered unpadded and fail to re-parse. -/
theorem claim_C9 (d : PyDateTime) (hv : ValidDT d) (hy4 : 1000 ≤ d.year) :
    strptimeFull (formatDateForIntacct d) =
      some ⟨d.year, d.month, d.day, d.hour, d.minute, d.second, 0⟩ ∧
    parseToDatetime (formatDateForIntacct d) =
      .ok ⟨d.year, d.month, d.day, d.hour, d.minute, d.second, 0⟩ := by
  obtain ⟨h1, h2, h3, h4, h5, h6, h7, h8, h9, h10⟩ := hv
  have hd31 : d.day ≤ 31 := le_trans h6 (daysInMonth_le_31 d.year d.month)
  have hfull : strptimeFull (formatDateForIntacct d) =
      some ⟨d.year, d.month, d.day, d.hour, d.minute, d.second, 0⟩ := by
    unfold formatDateForIntacct strptimeFull
    rw [data_mk]
    rw [yearChars_eq_pad4 d.year hy4]
    rw [timeCands_pad d.month d.day d.year d.hour d.minute d.second
      h3 h4 h5 hd31 h2 h7 h8 h9]
    show mkDatetime d.year d.month d.day d.hour d.minute d.second = _
    unfold mkDatetime
    rw [if_pos]
    exact ⟨h1, h2, h3, h4, h5, h6, h7, h8, h9⟩
  refine ⟨hfull, ?_⟩
  unfold parseToDatetime
  rw [hfull]

/-- Witness for C9 (amended): a concrete watermark with nonzero
microseconds round-trips to itself truncated to the second. -/
theorem claim_C9_witness :
    strptimeFull (formatDateForIntacct ⟨2024, 2, 29, 23, 59, 58, 123456⟩) =
      some ⟨2024, 2, 29, 23, 59, 58, 0⟩ ∧
    parseToDatetime (formatDateForIntacct ⟨2024, 2, 29, 23, 59, 58, 123456⟩) =
      .ok ⟨2024, 2, 29, 23, 59, 58, 0⟩ :=
  claim_C9 ⟨2024, 2, 29, 23, 59, 58, 123456⟩ (by decide) (by decide)

end TapIntacct
